import Mathlib

/-!
Shallow embedding of the Oncoflow workflow transition engine and its
repository caller, translated from `src/oncoflow/models.py`,
`src/oncoflow/workflow.py` and `src/oncoflow/repository.py`.

Conventions of the embedding:
* Python exceptions become an explicit error type `PyErr`, one constructor
  per Python exception class the code can raise.
* Methods that mutate `self` are translated to state passing: they take the
  prior state and return the new state paired with the outcome.
* Nondeterministically generated values (`uuid4()` ids, `utcnow()`
  timestamps) are passed in as explicit parameters.
-/

/-- The five clinical roles (`models.Role`, a `str` enum). -/
inductive Role
  | MANIPULATEUR
  | PHYSICIEN
  | ONCOLOGUE
  | DOSIMETRISTE
  | COORDINATION
deriving DecidableEq

/-- The `.value` string of each `Role` member, as in `models.py`. -/
def Role.value : Role → String
  | .MANIPULATEUR => "manipulateur"
  | .PHYSICIEN => "physicien"
  | .ONCOLOGUE => "oncologue"
  | .DOSIMETRISTE => "dosimetrist"
  | .COORDINATION => "coordination"

instance : Fintype Role :=
  ⟨([.MANIPULATEUR, .PHYSICIEN, .ONCOLOGUE, .DOSIMETRISTE, .COORDINATION] : List Role).toFinset,
   fun x => by cases x <;> decide⟩

/-- The nine case statuses (`models.DossierStatus`, a `str` enum). -/
inductive DossierStatus
  | A_PREPARER
  | PRESCRIPTION_VALIDEE
  | CONTOURS_VALIDES
  | PLAN_EN_REVUE
  | PLAN_VALIDE
  | PRET_POUR_TRAITEMENT
  | EN_TRAITEMENT
  | CLOTURE
  | A_REPRENDRE_CONTOURAGE
deriving DecidableEq

/-- The `.value` string of each `DossierStatus` member. -/
def DossierStatus.value : DossierStatus → String
  | .A_PREPARER => "A_PREPARER"
  | .PRESCRIPTION_VALIDEE => "PRESCRIPTION_VALIDEE"
  | .CONTOURS_VALIDES => "CONTOURS_VALIDES"
  | .PLAN_EN_REVUE => "PLAN_EN_REVUE"
  | .PLAN_VALIDE => "PLAN_VALIDE"
  | .PRET_POUR_TRAITEMENT => "PRET_POUR_TRAITEMENT"
  | .EN_TRAITEMENT => "EN_TRAITEMENT"
  | .CLOTURE => "CLOTURE"
  | .A_REPRENDRE_CONTOURAGE => "A_REPRENDRE_CONTOURAGE"

instance : Fintype DossierStatus :=
  ⟨([.A_PREPARER, .PRESCRIPTION_VALIDEE, .CONTOURS_VALIDES, .PLAN_EN_REVUE,
    .PLAN_VALIDE, .PRET_POUR_TRAITEMENT, .EN_TRAITEMENT, .CLOTURE,
    .A_REPRENDRE_CONTOURAGE] : List DossierStatus).toFinset,
   fun x => by cases x <;> decide⟩

/-- Iteration order of the `DossierStatus` enum (declaration order). -/
def allStatuses : List DossierStatus :=
  [.A_PREPARER, .PRESCRIPTION_VALIDEE, .CONTOURS_VALIDES, .PLAN_EN_REVUE,
   .PLAN_VALIDE, .PRET_POUR_TRAITEMENT, .EN_TRAITEMENT, .CLOTURE,
   .A_REPRENDRE_CONTOURAGE]

/-- The six boolean checklist flags (`models.ChecklistState`), all
defaulting to `false`. -/
structure ChecklistState where
  identity_validated : Bool := false
  prescription_signed : Bool := false
  contours_locked : Bool := false
  qa_dosimetrie : Bool := false
  signature_oncologue : Bool := false
  qa_machine_jour : Bool := false
deriving DecidableEq

/-- The keys of `ChecklistState.model_fields`, in declaration order. -/
def ChecklistState.fieldNames : List String :=
  ["identity_validated", "prescription_signed", "contours_locked",
   "qa_dosimetrie", "signature_oncologue", "qa_machine_jour"]

/-- `getattr(checklist, name)` restricted to the declared model fields:
`none` models the `AttributeError` case of an unknown attribute name. -/
def ChecklistState.getField? (c : ChecklistState) (name : String) : Option Bool :=
  if name = "identity_validated" then some c.identity_validated
  else if name = "prescription_signed" then some c.prescription_signed
  else if name = "contours_locked" then some c.contours_locked
  else if name = "qa_dosimetrie" then some c.qa_dosimetrie
  else if name = "signature_oncologue" then some c.signature_oncologue
  else if name = "qa_machine_jour" then some c.qa_machine_jour
  else none

/-- The Python exception classes the embedded code can raise. `workflow.py`
defines the single class `TransitionError(ValueError)`; `KeyError` and
`AttributeError` are builtins. -/
inductive PyErr
  | keyError (msg : String)
  | transitionError (msg : String)
  | attributeError (msg : String)
deriving DecidableEq

/-- The Python class name of an exception: this is the only type-level
information a caller can dispatch on (`except TransitionError:` etc.). -/
def PyErr.pyClass : PyErr → String
  | .keyError _ => "KeyError"
  | .transitionError _ => "TransitionError"
  | .attributeError _ => "AttributeError"

instance {ε α : Type} [DecidableEq ε] [DecidableEq α] : DecidableEq (Except ε α) := fun a b =>
  match a, b with
  | .ok x, .ok y => decidable_of_iff (x = y) ⟨fun h => by rw [h], fun h => by injection h⟩
  | .ok _, .error _ => .isFalse (fun h => Except.noConfusion h)
  | .error _, .ok _ => .isFalse (fun h => Except.noConfusion h)
  | .error e, .error f => decidable_of_iff (e = f) ⟨fun h => by rw [h], fun h => by injection h⟩

/-- `WorkflowEngine.order`: the canonical linear status ordering. It is a
class attribute, never mutated (no mutator and `reset` does not touch it). -/
def statusOrder : List DossierStatus :=
  [.A_PREPARER, .PRESCRIPTION_VALIDEE, .CONTOURS_VALIDES, .PLAN_EN_REVUE,
   .A_REPRENDRE_CONTOURAGE, .PLAN_VALIDE, .PRET_POUR_TRAITEMENT,
   .EN_TRAITEMENT, .CLOTURE]

/-- `WorkflowEngine.base_forward_rules`. The Python dict lists every status
as a key, so a total function is an exact model. -/
def baseForwardRules : DossierStatus → List DossierStatus
  | .A_PREPARER => [.PRESCRIPTION_VALIDEE]
  | .PRESCRIPTION_VALIDEE => [.CONTOURS_VALIDES, .A_PREPARER]
  | .CONTOURS_VALIDES => [.PLAN_EN_REVUE, .PRESCRIPTION_VALIDEE]
  | .PLAN_EN_REVUE => [.PLAN_VALIDE, .A_REPRENDRE_CONTOURAGE, .CONTOURS_VALIDES]
  | .PLAN_VALIDE => [.PRET_POUR_TRAITEMENT, .PLAN_EN_REVUE]
  | .PRET_POUR_TRAITEMENT => [.EN_TRAITEMENT, .PLAN_VALIDE]
  | .EN_TRAITEMENT => [.CLOTURE, .PRET_POUR_TRAITEMENT]
  | .CLOTURE => []
  | .A_REPRENDRE_CONTOURAGE => [.CONTOURS_VALIDES]

/-- `WorkflowEngine.base_allowed_roles`: every status maps to the list of
all five roles. -/
def baseAllowedRoles : DossierStatus → List Role := fun _ =>
  [.MANIPULATEUR, .PHYSICIEN, .ONCOLOGUE, .DOSIMETRISTE, .COORDINATION]

/-- `WorkflowEngine.base_checklist_requirements`: the dict-with-`.get`
access pattern is modelled as a total function into `Option`. -/
def baseChecklistRequirements : DossierStatus → Option String
  | .PRESCRIPTION_VALIDEE => some "identity_validated"
  | .CONTOURS_VALIDES => some "prescription_signed"
  | .PLAN_EN_REVUE => some "contours_locked"
  | .PLAN_VALIDE => some "qa_dosimetrie"
  | .PRET_POUR_TRAITEMENT => some "signature_oncologue"
  | .EN_TRAITEMENT => some "qa_machine_jour"
  | _ => none

/-- The mutable rule table held on a `WorkflowEngine` instance
(`forward_rules`, `allowed_roles`, `checklist_requirements`). -/
structure EngineState where
  forward_rules : DossierStatus → List DossierStatus
  allowed_roles : DossierStatus → List Role
  checklist_requirements : DossierStatus → Option String

/-- The state set up by `WorkflowEngine.reset()` (and by `__init__`). -/
def baseline : EngineState where
  forward_rules := baseForwardRules
  allowed_roles := baseAllowedRoles
  checklist_requirements := baseChecklistRequirements

/-- Message of the reachability failure, from the f-string in
`validate_transition`. -/
def illegalMsg (current target : DossierStatus) : String :=
  "Transition " ++ (current.value ++ (" -> " ++ (target.value ++ " non autorisee")))

/-- Message of the role-authorization failure. -/
def unauthMsg (role : Role) (target : DossierStatus) : String :=
  "Le role " ++ (role.value ++ (" n'est pas autorise pour atteindre " ++ target.value))

/-- Message of the checklist-precondition failure. -/
def precondMsg (requirement : String) (target : DossierStatus) : String :=
  "La condition '" ++ (requirement ++ ("' doit etre validee pour passer en " ++ target.value))

/-- Message of the backward-without-comment failure. -/
def commentMsg : String :=
  "Un commentaire est obligatoire pour revenir a un statut precedent"

/-- Python truthiness of an `Optional[str]`: `not x` is true exactly for
`None` and the empty string. -/
def pyFalsyStr : Option String → Bool
  | none => true
  | some s => s.isEmpty

/-- `WorkflowEngine._is_backward`: compare positions in `order`; the
`try/except ValueError` around `list.index` means a status absent from the
order yields `False`. -/
def isBackward (current target : DossierStatus) : Bool :=
  match statusOrder.findIdx? (· == target), statusOrder.findIdx? (· == current) with
  | some ti, some ci => decide (ti < ci)
  | _, _ => false

/-- First check of `validate_transition`: reachability
(`target not in self.forward_rules.get(current, [])`). -/
def checkReachability (st : EngineState) (current target : DossierStatus) : Except PyErr Unit :=
  if target ∈ st.forward_rules current then .ok ()
  else .error (.transitionError (illegalMsg current target))

/-- Second check: role authorization, evaluated only when a role is
supplied (`if role:`), and only restrictive when the allowed list is
non-empty (`if authorized_roles and role not in authorized_roles:`). -/
def checkRole (st : EngineState) (target : DossierStatus) (role : Option Role) : Except PyErr Unit :=
  match role with
  | none => .ok ()
  | some r =>
    if st.allowed_roles target ≠ [] ∧ r ∉ st.allowed_roles target then
      .error (.transitionError (unauthMsg r target))
    else .ok ()

/-- Third check: checklist precondition. `requirement` is skipped when
absent or empty (`if requirement:`), `getattr` on an unknown field raises
`AttributeError`, and a falsy value raises the precondition error. -/
def checkChecklist (st : EngineState) (target : DossierStatus) (checklist : ChecklistState) : Except PyErr Unit :=
  match st.checklist_requirements target with
  | none => .ok ()
  | some req =>
    if req = "" then .ok ()
    else
      match checklist.getField? req with
      | none => .error (.attributeError ("'ChecklistState' object has no attribute '" ++ (req ++ "'")))
      | some b => if b then .ok () else .error (.transitionError (precondMsg req target))

/-- Fourth check: backward transitions require a non-empty comment
(`if is_backward and not commentaire:`). -/
def checkComment (current target : DossierStatus) (commentaire : Option String) : Except PyErr Unit :=
  if isBackward current target && pyFalsyStr commentaire then
    .error (.transitionError commentMsg)
  else .ok ()

/-- `WorkflowEngine.validate_transition`: the four checks in source order,
stopping at the first raise. -/
def validate_transition (st : EngineState) (current target : DossierStatus)
    (checklist : ChecklistState) (commentaire : Option String) (role : Option Role) :
    Except PyErr Unit := do
  checkReachability st current target
  checkRole st target role
  checkChecklist st target checklist
  checkComment current target commentaire

/-- `models.Transition`. The `uuid4()` id and `utcnow()` timestamp are the
`id` and `horodatage` fields; their generated values are supplied as
parameters to `apply_transition`. -/
structure Transition where
  id : String
  dossier_id : String
  ancien_statut : DossierStatus
  nouveau_statut : DossierStatus
  horodatage : Nat
  auteur : String
  role : Role
  commentaire : Option String
deriving DecidableEq

/-- `WorkflowEngine.apply_transition`: validate, then construct the record.
The repository only calls it after checking that an actor role is present,
so `role` is a plain `Role` (it is passed on to `validate_transition` as a
supplied, truthy value). -/
def apply_transition (st : EngineState) (freshId : String) (now : Nat)
    (dossier_id : String) (current target : DossierStatus) (checklist : ChecklistState)
    (auteur : String) (role : Role) (commentaire : Option String) :
    Except PyErr Transition := do
  validate_transition st current target checklist commentaire (some role)
  pure { id := freshId, dossier_id := dossier_id, ancien_statut := current,
         nouveau_statut := target, horodatage := now, auteur := auteur,
         role := role, commentaire := commentaire }

/-- A value handed to `update_transitions` through the untyped call: either
a genuine `DossierStatus` member or a plain string (the annotation
`List[DossierStatus]` is not enforced by Python). -/
inductive RawTarget
  | status (s : DossierStatus)
  | str (v : String)
deriving DecidableEq

/-- The `.value` strings of all statuses. -/
def statusValues : List String := allStatuses.map DossierStatus.value

/-- `t in DossierStatus` for a raw target (Python 3.12 semantics: a member
is contained, and a plain value is contained iff it is some member's
value). -/
def RawTarget.isMember : RawTarget → Bool
  | .status _ => true
  | .str v => statusValues.contains v

/-- `t.value`: a plain string has no `.value` attribute (`none` models the
`AttributeError`). -/
def RawTarget.value? : RawTarget → Option String
  | .status s => some s.value
  | .str _ => none

/-- Conversion of a member-or-valid-value raw target to the status it
denotes. A stored valid value string behaves exactly like the member under
the `str`-enum `==` used by every later lookup, so storing the member is an
exact model of line 157 of `workflow.py`. -/
def RawTarget.asStatus? : RawTarget → Option DossierStatus
  | .status s => some s
  | .str v => allStatuses.find? (fun s => s.value = v)

/-- Message of the invalid-targets configuration failure. -/
def invalidTargetsMsg (values : List String) : String :=
  "Cibles invalides: " ++ String.intercalate ", " values

/-- `WorkflowEngine.update_transitions`: filter out the targets that are
not in `DossierStatus`; if any remain, build the error message (evaluating
`t.value` on a plain string raises `AttributeError` instead) and raise
before mutating; otherwise replace the entry for `source`. -/
def update_transitions (st : EngineState) (source : DossierStatus)
    (targets : List RawTarget) : EngineState × Except PyErr Unit :=
  let invalid := targets.filter (fun t => !t.isMember)
  if invalid.isEmpty then
    ({ st with forward_rules := fun s =>
        if s = source then targets.filterMap RawTarget.asStatus? else st.forward_rules s },
     .ok ())
  else
    match invalid.mapM RawTarget.value? with
    | some vs => (st, .error (.transitionError (invalidTargetsMsg vs)))
    | none => (st, .error (.attributeError "'str' object has no attribute 'value'"))

/-- `WorkflowEngine.update_allowed_roles`: unvalidated replacement. -/
def update_allowed_roles (st : EngineState) (status : DossierStatus)
    (roles : List Role) : EngineState × Except PyErr Unit :=
  ({ st with allowed_roles := fun s =>
      if s = status then roles else st.allowed_roles s },
   .ok ())

/-- Message of the unknown-checklist-field configuration failure. -/
def configReqMsg (requirement : String) : String :=
  "Le pre-requis " ++ (requirement ++ " n'existe pas dans la checklist")

/-- `WorkflowEngine.update_checklist_requirement`: a truthy requirement not
among the model fields raises; a truthy valid one is stored; a falsy one
(`None` or `""`) clears the entry (the `status in dict` guard before `del`
makes clearing an absent entry a no-op, which the `Option`-valued function
model absorbs). -/
def update_checklist_requirement (st : EngineState) (status : DossierStatus)
    (requirement : Option String) : EngineState × Except PyErr Unit :=
  if !pyFalsyStr requirement ∧ requirement.getD "" ∉ ChecklistState.fieldNames then
    (st, .error (.transitionError (configReqMsg (requirement.getD ""))))
  else if !pyFalsyStr requirement then
    ({ st with checklist_requirements := fun s =>
        if s = status then requirement else st.checklist_requirements s },
     .ok ())
  else
    ({ st with checklist_requirements := fun s =>
        if s = status then none else st.checklist_requirements s },
     .ok ())

/-- `models.Patient`. -/
structure Patient where
  id : String
  external_id : Option String := none
  nom : String
  prenom : String
  pathologie : Option String := none
  medecins_referents : List String := []
deriving DecidableEq

/-- `models.Dossier`. -/
structure Dossier where
  id : String
  patient_id : String
  machine : Option String := none
  protocole : Option String := none
  statut : DossierStatus := .A_PREPARER
  priorite : Option String := none
  etiquettes : List String := []
  checklists : ChecklistState := {}
  historique : List Transition := []
deriving DecidableEq

/-- `models.Message` (uuid id omitted; timestamp as `Nat`). -/
structure Message where
  dossier_id : String
  auteur : String
  role : Role
  texte : String
  mentions : List String := []
  pieces_jointes : List String := []
  visibilite : String := "equipe"
  horodatage : Nat := 0
deriving DecidableEq

/-- `models.Notification` (uuid id and `created_at` omitted: generated,
never read by the embedded operations). -/
structure Notification where
  type : String
  message : String
  severity : String := "info"
  dossier_id : Option String := none
deriving DecidableEq

/-- `models.TransitionRequest`. `contexte` is a `Dict[str, bool]`; the
`none_to_empty` validator makes a missing dict the empty one, so a total
function into `Option Bool` (with `fun _ => none` as the empty dict) is an
exact model. -/
structure TransitionRequest where
  cible : DossierStatus
  contexte : String → Option Bool
  commentaire : Option String := none
  acteur : Option String := none
  role : Option Role := none

/-- `pydantic` `model_copy(update=d)` on a `ChecklistState`: each field
takes the override when its key is present in `d`, otherwise the prior
value. Keys of `d` outside the field set would become extra attributes
invisible to every field read, so they are dropped. -/
def ChecklistState.modelCopy (c : ChecklistState) (update : String → Option Bool) : ChecklistState where
  identity_validated := (update "identity_validated").getD c.identity_validated
  prescription_signed := (update "prescription_signed").getD c.prescription_signed
  contours_locked := (update "contours_locked").getD c.contours_locked
  qa_dosimetrie := (update "qa_dosimetrie").getD c.qa_dosimetrie
  signature_oncologue := (update "signature_oncologue").getD c.signature_oncologue
  qa_machine_jour := (update "qa_machine_jour").getD c.qa_machine_jour

/-- The data owned by an `InMemoryRepository`: dicts become total functions
into `Option`. -/
structure RepoState where
  patients : String → Option Patient
  dossiers : String → Option Dossier
  messages : String → List Message
  notifications : List Notification

/-- The process state a transition request can read or write: the module
level `engine` singleton plus the repository. -/
structure World where
  eng : EngineState
  repo : RepoState

/-- The member name of a `Role`, as `str(Role.X)` renders it. -/
def roleName : Role → String
  | .MANIPULATEUR => "MANIPULATEUR"
  | .PHYSICIEN => "PHYSICIEN"
  | .ONCOLOGUE => "ONCOLOGUE"
  | .DOSIMETRISTE => "DOSIMETRISTE"
  | .COORDINATION => "COORDINATION"

/-- The notification text built after the in-place mutation of the dossier:
`dossier.statut` has already been set to `request.cible`, so the message
renders the target twice. (`f"{request.role}"` renders the enum member;
its exact spelling is irrelevant to every claim.) -/
def transitionNotifMsg (acteur : String) (role : Role) (statut cible : DossierStatus) : String :=
  acteur ++ (" (Role." ++ (roleName role ++ (") : " ++ (statut.value ++ (" -> " ++ cible.value)))))

/-- `InMemoryRepository.apply_transition`, state-passing translation.
Mutation order follows the source: the dossier object is mutated in place
only after the engine call returns, so any raise leaves the repository
exactly as it was. The in-place mutation is visible through the lookup key
`dossier_id`, and line 167 re-binds the object under `dossier.id`. -/
def repoApplyTransition (w : World) (freshId : String) (now : Nat)
    (dossier_id : String) (request : TransitionRequest) : World × Except PyErr Transition :=
  match w.repo.dossiers dossier_id with
  | none => (w, .error (.keyError "Dossier introuvable"))
  | some dossier =>
    let merged := dossier.checklists.modelCopy request.contexte
    match request.acteur, request.role with
    | some acteur, some role =>
      if acteur.isEmpty then
        (w, .error (.transitionError "Identite (acteur/role) manquante pour la transition"))
      else
        match apply_transition w.eng freshId now dossier.id dossier.statut request.cible
            merged acteur role request.commentaire with
        | .error e => (w, .error e)
        | .ok transition =>
          let dossier' : Dossier :=
            { dossier with
              statut := request.cible
              checklists := merged
              historique := dossier.historique ++ [transition] }
          let notif : Notification :=
            { type := "transition"
              message := transitionNotifMsg acteur role dossier'.statut request.cible
              severity := "info"
              dossier_id := some dossier_id }
          ({ w with repo :=
              { w.repo with
                dossiers := fun k =>
                  if k = dossier'.id then some dossier'
                  else if k = dossier_id then some dossier'
                  else w.repo.dossiers k
                notifications := w.repo.notifications ++ [notif] } },
           .ok transition)
    | _, _ =>
      (w, .error (.transitionError "Identite (acteur/role) manquante pour la transition"))

example : validate_transition baseline .A_PREPARER .PRESCRIPTION_VALIDEE {} none none
    = .error (.transitionError (precondMsg "identity_validated" .PRESCRIPTION_VALIDEE)) := by decide

example : validate_transition baseline .A_PREPARER .PRESCRIPTION_VALIDEE
    { identity_validated := true } none none = .ok () := by decide

example : isBackward .A_PREPARER .CLOTURE = false := by decide

example : isBackward .CLOTURE .A_PREPARER = true := by decide

/-- The reachability check passes: the requested edge is in the table. -/
def reachOk (st : EngineState) (current target : DossierStatus) : Prop :=
  target ∈ st.forward_rules current

instance (st : EngineState) (c t : DossierStatus) : Decidable (reachOk st c t) :=
  inferInstanceAs (Decidable (t ∈ st.forward_rules c))

/-- The role check fails: a role was supplied, the allowed list for the
target is non-empty, and the role is not in it. -/
def roleBlocked (st : EngineState) (target : DossierStatus) : Option Role → Bool
  | none => false
  | some r => decide (st.allowed_roles target ≠ [] ∧ r ∉ st.allowed_roles target)

/-- The checklist check passes: no requirement, an empty requirement, or a
requirement naming a field that is true on the merged checklist. -/
def reqPass (st : EngineState) (target : DossierStatus) (cl : ChecklistState) : Bool :=
  match st.checklist_requirements target with
  | none => true
  | some req => decide (req = "") || decide (cl.getField? req = some true)

/-- The checklist check fails with the precondition error on field `req`. -/
def reqFail (st : EngineState) (target : DossierStatus) (cl : ChecklistState) (req : String) : Bool :=
  decide (st.checklist_requirements target = some req) && decide (req ≠ "")
    && decide (cl.getField? req = some false)

/-- Every stored checklist requirement names a declared checklist field.
`update_checklist_requirement` validates writes against the field set and
the baseline satisfies it, so every reachable rule table does. -/
def validOk (st : EngineState) : Bool :=
  allStatuses.all fun t =>
    match st.checklist_requirements t with
    | none => true
    | some req => decide (req ∈ ChecklistState.fieldNames)

/-- Unfolding of the `do` block of `validate_transition` into explicit
`Except.bind` applications. -/
lemma validate_eq (st : EngineState) (c t : DossierStatus) (cl : ChecklistState)
    (com : Option String) (role : Option Role) :
    validate_transition st c t cl com role =
      (checkReachability st c t).bind fun _ =>
        (checkRole st t role).bind fun _ =>
          (checkChecklist st t cl).bind fun _ => checkComment c t com := rfl

lemma ebind_ok {α : Type} (f : Unit → Except PyErr α) : (Except.ok ()).bind f = f () := rfl

lemma ebind_err {α : Type} (e : PyErr) (f : Unit → Except PyErr α) :
    (Except.error e).bind f = .error e := rfl

lemma checkReachability_pos (st : EngineState) (c t : DossierStatus) (h : reachOk st c t) :
    checkReachability st c t = .ok () := by
  unfold checkReachability
  exact if_pos h

lemma checkReachability_neg (st : EngineState) (c t : DossierStatus) (h : ¬reachOk st c t) :
    checkReachability st c t = .error (.transitionError (illegalMsg c t)) := by
  unfold checkReachability
  exact if_neg h

lemma checkRole_pos (st : EngineState) (t : DossierStatus) (role : Option Role)
    (h : roleBlocked st t role = false) : checkRole st t role = .ok () := by
  cases role with
  | none => rfl
  | some r =>
    unfold checkRole
    apply if_neg
    simpa [roleBlocked] using h

lemma checkRole_neg (st : EngineState) (t : DossierStatus) (r : Role)
    (h : roleBlocked st t (some r) = true) :
    checkRole st t (some r) = .error (.transitionError (unauthMsg r t)) := by
  unfold checkRole
  apply if_pos
  simpa [roleBlocked] using h

lemma checkChecklist_pos (st : EngineState) (t : DossierStatus) (cl : ChecklistState)
    (h : reqPass st t cl = true) : checkChecklist st t cl = .ok () := by
  cases hreq : st.checklist_requirements t with
  | none => simp [checkChecklist, hreq]
  | some req =>
    simp only [reqPass, hreq, Bool.or_eq_true, decide_eq_true_eq] at h
    rcases h with h1 | h2
    · simp [checkChecklist, hreq, h1]
    · by_cases he : req = ""
      · simp [checkChecklist, hreq, he]
      · simp [checkChecklist, hreq, he, h2]

lemma checkChecklist_neg (st : EngineState) (t : DossierStatus) (cl : ChecklistState)
    (req : String) (h : reqFail st t cl req = true) :
    checkChecklist st t cl = .error (.transitionError (precondMsg req t)) := by
  simp only [reqFail, Bool.and_eq_true, decide_eq_true_eq] at h
  rcases h with ⟨⟨h1, h2⟩, h3⟩
  simp [checkChecklist, h1, h2, h3]

lemma checkComment_pos (c t : DossierStatus) (com : Option String)
    (h : isBackward c t = false ∨ pyFalsyStr com = false) :
    checkComment c t com = .ok () := by
  unfold checkComment
  rcases h with h | h <;> simp [h]

lemma checkComment_neg (c t : DossierStatus) (com : Option String)
    (h1 : isBackward c t = true) (h2 : pyFalsyStr com = true) :
    checkComment c t com = .error (.transitionError commentMsg) := by
  unfold checkComment
  simp [h1, h2]

lemma ne_of_data_take2_ne (a b : String) (h : a.data.take 2 ≠ b.data.take 2) : a ≠ b :=
  fun he => h (by rw [he])

lemma data_take2_append (p x : String) (h : 2 ≤ p.data.length) :
    (p ++ x).data.take 2 = p.data.take 2 := by
  rw [String.data_append, List.take_append_of_le_length h]

lemma illegal_ne_unauth (c t : DossierStatus) (r : Role) (t' : DossierStatus) :
    illegalMsg c t ≠ unauthMsg r t' := by
  apply ne_of_data_take2_ne
  unfold illegalMsg unauthMsg
  rw [data_take2_append _ _ (by decide), data_take2_append _ _ (by decide)]
  decide

lemma illegal_ne_precond (c t : DossierStatus) (req : String) (t' : DossierStatus) :
    illegalMsg c t ≠ precondMsg req t' := by
  apply ne_of_data_take2_ne
  unfold illegalMsg precondMsg
  rw [data_take2_append _ _ (by decide), data_take2_append _ _ (by decide)]
  decide

lemma illegal_ne_comment (c t : DossierStatus) : illegalMsg c t ≠ commentMsg := by
  apply ne_of_data_take2_ne
  unfold illegalMsg
  rw [data_take2_append _ _ (by decide)]
  decide

lemma unauth_ne_precond (r : Role) (t : DossierStatus) (req : String) (t' : DossierStatus) :
    unauthMsg r t ≠ precondMsg req t' := by
  apply ne_of_data_take2_ne
  unfold unauthMsg precondMsg
  rw [data_take2_append _ _ (by decide), data_take2_append _ _ (by decide)]
  decide

lemma unauth_ne_comment (r : Role) (t : DossierStatus) : unauthMsg r t ≠ commentMsg := by
  apply ne_of_data_take2_ne
  unfold unauthMsg
  rw [data_take2_append _ _ (by decide)]
  decide

lemma precond_ne_comment (req : String) (t : DossierStatus) : precondMsg req t ≠ commentMsg := by
  apply ne_of_data_take2_ne
  unfold precondMsg
  rw [data_take2_append _ _ (by decide)]
  decide


lemma checkComment_shapes (c t : DossierStatus) (com : Option String) (e : PyErr)
    (h : checkComment c t com = .error e) : e = .transitionError commentMsg := by
  unfold checkComment at h
  by_cases hb : (isBackward c t && pyFalsyStr com) = true
  · rw [if_pos hb] at h
    exact (Except.error.inj h).symm
  · rw [if_neg hb] at h
    exact absurd h (by simp)

lemma checkChecklist_shapes (st : EngineState) (t : DossierStatus) (cl : ChecklistState)
    (e : PyErr) (h : checkChecklist st t cl = .error e) :
    ∃ req, st.checklist_requirements t = some req ∧
      (e = .transitionError (precondMsg req t)
        ∨ (cl.getField? req = none
            ∧ e = .attributeError ("'ChecklistState' object has no attribute '" ++ (req ++ "'")))) := by
  unfold checkChecklist at h
  rcases hreq : st.checklist_requirements t with _ | req <;> rw [hreq] at h <;>
    simp only at h
  · exact absurd h (by simp)
  · refine ⟨req, rfl, ?_⟩
    by_cases he : req = ""
    · rw [if_pos he] at h
      exact absurd h (by simp)
    · rw [if_neg he] at h
      rcases hget : cl.getField? req with _ | b <;> rw [hget] at h <;> simp only at h
      · exact Or.inr ⟨hget.symm ▸ rfl, (Except.error.inj h).symm⟩
      · rcases b with _ | _
        · rw [if_neg Bool.false_ne_true] at h
          exact Or.inl (Except.error.inj h).symm
        · rw [if_pos rfl] at h
          exact absurd h (by simp)

lemma checkRole_shapes (st : EngineState) (t : DossierStatus) (role : Option Role) (e : PyErr)
    (h : checkRole st t role = .error e) :
    ∃ r, role = some r ∧ e = .transitionError (unauthMsg r t) := by
  rcases role with _ | r
  · exact absurd h (by simp [checkRole])
  · unfold checkRole at h
    simp only at h
    by_cases hr : st.allowed_roles t ≠ [] ∧ r ∉ st.allowed_roles t
    · rw [if_pos hr] at h
      exact ⟨r, rfl, (Except.error.inj h).symm⟩
    · rw [if_neg hr] at h
      exact absurd h (by simp)

lemma ebind_error_cases {α : Type} (a : Except PyErr Unit) (f : Unit → Except PyErr α)
    (e : PyErr) (h : a.bind f = .error e) :
    a = .error e ∨ (a = .ok () ∧ f () = .error e) := by
  rcases a with ea | u
  · rw [ebind_err] at h
    exact Or.inl (by rw [Except.error.inj h])
  · rcases u
    rw [ebind_ok] at h
    exact Or.inr ⟨rfl, h⟩

/-- Every error of `validate_transition` is one of the four raise sites'
errors (or the `AttributeError` of a dangling requirement name), each tied
to the argument values of its own site. -/
lemma validate_error_shapes (st : EngineState) (c t : DossierStatus) (cl : ChecklistState)
    (com : Option String) (role : Option Role) (e : PyErr)
    (h : validate_transition st c t cl com role = .error e) :
    e = .transitionError (illegalMsg c t)
    ∨ (∃ r, role = some r ∧ e = .transitionError (unauthMsg r t))
    ∨ (∃ req, st.checklist_requirements t = some req ∧
        (e = .transitionError (precondMsg req t)
          ∨ (cl.getField? req = none
              ∧ e = .attributeError ("'ChecklistState' object has no attribute '" ++ (req ++ "'")))))
    ∨ e = .transitionError commentMsg := by
  rw [validate_eq] at h
  rcases ebind_error_cases _ _ _ h with h1 | ⟨_, h1⟩
  · unfold checkReachability at h1
    by_cases hm : t ∈ st.forward_rules c
    · rw [if_pos hm] at h1
      exact absurd h1 (by simp)
    · rw [if_neg hm] at h1
      exact Or.inl (Except.error.inj h1).symm
  · rcases ebind_error_cases _ _ _ h1 with h2 | ⟨_, h2⟩
    · exact Or.inr (Or.inl (checkRole_shapes st t role e h2))
    · rcases ebind_error_cases _ _ _ h2 with h3 | ⟨_, h3⟩
      · exact Or.inr (Or.inr (Or.inl (checkChecklist_shapes st t cl e h3)))
      · exact Or.inr (Or.inr (Or.inr (checkComment_shapes c t com e h3)))

lemma ebind_ok_cases {α : Type} (a : Except PyErr Unit) (f : Unit → Except PyErr α)
    (x : α) (h : a.bind f = .ok x) : a = .ok () ∧ f () = .ok x := by
  rcases a with ea | u
  · rw [ebind_err] at h
    exact absurd h (by simp)
  · rcases u
    rw [ebind_ok] at h
    exact ⟨rfl, h⟩

lemma checkReachability_ok (st : EngineState) (c t : DossierStatus)
    (h : checkReachability st c t = .ok ()) : reachOk st c t := by
  unfold checkReachability at h
  by_cases hm : t ∈ st.forward_rules c
  · exact hm
  · rw [if_neg hm] at h
    exact absurd h (by simp)

lemma checkRole_ok (st : EngineState) (t : DossierStatus) (role : Option Role)
    (h : checkRole st t role = .ok ()) : roleBlocked st t role = false := by
  rcases role with _ | r
  · rfl
  · unfold checkRole at h
    simp only at h
    by_cases hr : st.allowed_roles t ≠ [] ∧ r ∉ st.allowed_roles t
    · rw [if_pos hr] at h
      exact absurd h (by simp)
    · simpa [roleBlocked] using hr

lemma checkChecklist_ok (st : EngineState) (t : DossierStatus) (cl : ChecklistState)
    (h : checkChecklist st t cl = .ok ()) : reqPass st t cl = true := by
  unfold checkChecklist at h
  rcases hreq : st.checklist_requirements t with _ | req <;> rw [hreq] at h <;>
    simp only at h
  · simp [reqPass, hreq]
  · by_cases he : req = ""
    · simp [reqPass, hreq, he]
    · rw [if_neg he] at h
      rcases hget : cl.getField? req with _ | b <;> rw [hget] at h <;> simp only at h
      · exact absurd h (by simp)
      · rcases b with _ | _
        · rw [if_neg Bool.false_ne_true] at h
          exact absurd h (by simp)
        · simp [reqPass, hreq, hget]

lemma checkComment_ok (c t : DossierStatus) (com : Option String)
    (h : checkComment c t com = .ok ()) :
    isBackward c t = false ∨ pyFalsyStr com = false := by
  unfold checkComment at h
  by_cases hb : (isBackward c t && pyFalsyStr com) = true
  · rw [if_pos hb] at h
    exact absurd h (by simp)
  · rcases Bool.eq_false_or_eq_true (isBackward c t) with hib | hib
    · refine Or.inr ?_
      rcases Bool.eq_false_or_eq_true (pyFalsyStr com) with hpf | hpf
      · exact absurd (by simp [hib, hpf]) hb
      · exact hpf
    · exact Or.inl hib

/-- `validate_transition` succeeds exactly when all four checks pass. -/
lemma validate_ok_iff (st : EngineState) (c t : DossierStatus) (cl : ChecklistState)
    (com : Option String) (role : Option Role) :
    validate_transition st c t cl com role = .ok () ↔
      (reachOk st c t ∧ roleBlocked st t role = false ∧ reqPass st t cl = true
        ∧ (isBackward c t = false ∨ pyFalsyStr com = false)) := by
  constructor
  · intro h
    rw [validate_eq] at h
    rcases ebind_ok_cases _ _ _ h with ⟨h1, h⟩
    rcases ebind_ok_cases _ _ _ h with ⟨h2, h⟩
    rcases ebind_ok_cases _ _ _ h with ⟨h3, h4⟩
    exact ⟨checkReachability_ok st c t h1, checkRole_ok st t role h2,
      checkChecklist_ok st t cl h3, checkComment_ok c t com h4⟩
  · rintro ⟨h1, h2, h3, h4⟩
    rw [validate_eq, checkReachability_pos st c t h1, ebind_ok,
      checkRole_pos st t role h2, ebind_ok, checkChecklist_pos st t cl h3, ebind_ok,
      checkComment_pos c t com h4]

lemma validOk_spec (st : EngineState) (h : validOk st = true) (t : DossierStatus)
    (req : String) (hreq : st.checklist_requirements t = some req) :
    req ∈ ChecklistState.fieldNames := by
  unfold validOk at h
  rw [List.all_eq_true] at h
  have ht := h t (by cases t <;> decide)
  rw [hreq] at ht
  simp only at ht
  exact of_decide_eq_true ht

lemma getField?_isSome_of_mem (cl : ChecklistState) (req : String)
    (h : req ∈ ChecklistState.fieldNames) : (cl.getField? req).isSome = true := by
  fin_cases h <;> rfl

/-- When the role check cannot fire (no role, empty list, or member role),
no input makes `validate_transition` report the unauthorized-role error. -/
lemma validate_no_unauth (st : EngineState) (c t : DossierStatus) (cl : ChecklistState)
    (com : Option String) (role : Option Role) (hrole : roleBlocked st t role = false)
    (r' : Role) (t' : DossierStatus) :
    validate_transition st c t cl com role ≠ .error (.transitionError (unauthMsg r' t')) := by
  intro h
  rw [validate_eq] at h
  rcases ebind_error_cases _ _ _ h with h1 | ⟨_, h1⟩
  · unfold checkReachability at h1
    by_cases hm : t ∈ st.forward_rules c
    · rw [if_pos hm] at h1
      exact absurd h1 (by simp)
    · rw [if_neg hm] at h1
      exact illegal_ne_unauth c t r' t' (PyErr.transitionError.inj (Except.error.inj h1))
  · rcases ebind_error_cases _ _ _ h1 with h2 | ⟨_, h2⟩
    · rw [checkRole_pos st t role hrole] at h2
      exact absurd h2 (by simp)
    · rcases ebind_error_cases _ _ _ h2 with h3 | ⟨_, h3⟩
      · rcases checkChecklist_shapes st t cl _ h3 with ⟨req, _, hcase | ⟨_, hcase⟩⟩
        · exact unauth_ne_precond r' t' req t (PyErr.transitionError.inj hcase)
        · exact absurd hcase (by simp)
      · exact unauth_ne_comment r' t'
          (PyErr.transitionError.inj (checkComment_shapes c t com _ h3))

lemma findIdx?_beq_eq_none {α : Type} [DecidableEq α] (l : List α) (a : α)
    (h : a ∉ l) : l.findIdx? (· == a) = none := by
  rw [List.findIdx?_eq_none_iff]
  intro x hx
  exact beq_eq_false_iff_ne.mpr (fun he => h (he ▸ hx))

lemma apply_transition_ok (st : EngineState) (fid : String) (now : Nat) (did : String)
    (c t : DossierStatus) (cl : ChecklistState) (a : String) (r : Role)
    (com : Option String) (tr : Transition)
    (h : apply_transition st fid now did c t cl a r com = .ok tr) :
    validate_transition st c t cl com (some r) = .ok ()
    ∧ tr = { id := fid, dossier_id := did, ancien_statut := c, nouveau_statut := t,
             horodatage := now, auteur := a, role := r, commentaire := com } := by
  unfold apply_transition at h
  rcases ebind_ok_cases _ _ _ h with ⟨h1, h2⟩
  exact ⟨h1, (Except.ok.inj h2).symm⟩

/-- Substring test on the underlying character lists (the Python
`"x" in message` membership). -/
def strContains (s pat : String) : Bool :=
  (List.range (s.data.length + 1)).any fun i => pat.data.isPrefixOf (s.data.drop i)

/-- C1: `validate_transition` evaluates its four checks in the fixed order
reachability, role authorization, checklist precondition, backward-comment
policy, and for every input the reported failure is the first check that
fails; when all four pass it succeeds, so no later check's error is ever
reported when an earlier check fails. -/
theorem first_failing_check_wins (st : EngineState) (c t : DossierStatus)
    (cl : ChecklistState) (com : Option String) (role : Option Role) :
    (¬reachOk st c t →
      validate_transition st c t cl com role
        = .error (.transitionError (illegalMsg c t)))
    ∧ (∀ r, role = some r → reachOk st c t → roleBlocked st t (some r) = true →
        validate_transition st c t cl com role
          = .error (.transitionError (unauthMsg r t)))
    ∧ (∀ req, reachOk st c t → roleBlocked st t role = false →
        reqFail st t cl req = true →
        validate_transition st c t cl com role
          = .error (.transitionError (precondMsg req t)))
    ∧ (reachOk st c t → roleBlocked st t role = false → reqPass st t cl = true →
        isBackward c t = true → pyFalsyStr com = true →
        validate_transition st c t cl com role = .error (.transitionError commentMsg))
    ∧ (reachOk st c t → roleBlocked st t role = false → reqPass st t cl = true →
        (isBackward c t = false ∨ pyFalsyStr com = false) →
        validate_transition st c t cl com role = .ok ()) := by
  refine ⟨?_, ?_, ?_, ?_, ?_⟩
  · intro h
    rw [validate_eq, checkReachability_neg st c t h, ebind_err]
  · intro r hr h1 h2
    rw [validate_eq, checkReachability_pos st c t h1, ebind_ok, hr,
      checkRole_neg st t r h2, ebind_err]
  · intro req h1 h2 h3
    rw [validate_eq, checkReachability_pos st c t h1, ebind_ok,
      checkRole_pos st t role h2, ebind_ok, checkChecklist_neg st t cl req h3, ebind_err]
  · intro h1 h2 h3 h4 h5
    rw [validate_eq, checkReachability_pos st c t h1, ebind_ok,
      checkRole_pos st t role h2, ebind_ok, checkChecklist_pos st t cl h3, ebind_ok,
      checkComment_neg c t com h4 h5]
  · intro h1 h2 h3 h4
    rw [validate_eq, checkReachability_pos st c t h1, ebind_ok,
      checkRole_pos st t role h2, ebind_ok, checkChecklist_pos st t cl h3, ebind_ok,
      checkComment_pos c t com h4]

/-- Witness for C1: the comment check is reached and reported only after
the three earlier checks pass, on a concrete backward baseline request. -/
theorem first_failing_check_wins_witness :
    validate_transition baseline .PRESCRIPTION_VALIDEE .A_PREPARER {} none (some .ONCOLOGUE)
      = .error (.transitionError commentMsg) :=
  (first_failing_check_wins baseline .PRESCRIPTION_VALIDEE .A_PREPARER {} none
    (some .ONCOLOGUE)).2.2.2.1 (by decide) (by decide) (by decide) (by decide) (by decide)

/-- C2 as stated is false at a concrete input: `CLOTURE → A_PREPARER` is a
backward pair and the request has no comment, yet the failure reported is
the reachability error, not `CommentRequired`. -/
theorem backward_comment_counterexample :
    isBackward .CLOTURE .A_PREPARER = true
    ∧ pyFalsyStr none = true
    ∧ validate_transition baseline .CLOTURE .A_PREPARER {} none none
        = .error (.transitionError (illegalMsg .CLOTURE .A_PREPARER))
    ∧ illegalMsg .CLOTURE .A_PREPARER ≠ commentMsg := by
  refine ⟨by decide, rfl, by decide, by decide⟩

/-- C2 (amended): backward classification is the `status_order` index
comparison with the absent-status fallback; a backward comment-less request
never succeeds and fails with `CommentRequired` whenever the three earlier
checks pass; and a non-empty comment never unblocks an otherwise-illegal
request — with a comment supplied, success is equivalent to passing
reachability, role and checklist. -/
theorem backward_comment_policy (st : EngineState) (c t : DossierStatus)
    (cl : ChecklistState) (com : Option String) (role : Option Role) :
    (isBackward c t = true ↔ ∃ i j, statusOrder.findIdx? (· == t) = some i
        ∧ statusOrder.findIdx? (· == c) = some j ∧ i < j)
    ∧ (t ∉ statusOrder ∨ c ∉ statusOrder → isBackward c t = false)
    ∧ (isBackward c t = true → pyFalsyStr com = true →
        validate_transition st c t cl com role ≠ .ok ())
    ∧ (isBackward c t = true → pyFalsyStr com = true → reachOk st c t →
        roleBlocked st t role = false → reqPass st t cl = true →
        validate_transition st c t cl com role = .error (.transitionError commentMsg))
    ∧ (pyFalsyStr com = false →
        (validate_transition st c t cl com role = .ok () ↔
          reachOk st c t ∧ roleBlocked st t role = false ∧ reqPass st t cl = true)) := by
  refine ⟨?_, ?_, ?_, ?_, ?_⟩
  · unfold isBackward
    rcases hti : statusOrder.findIdx? (· == t) with _ | i <;>
      rcases hci : statusOrder.findIdx? (· == c) with _ | j <;> simp
  · rintro (h | h)
    · unfold isBackward
      rw [findIdx?_beq_eq_none statusOrder t h]
    · unfold isBackward
      rw [findIdx?_beq_eq_none statusOrder c h]
      rcases statusOrder.findIdx? (· == t) with _ | i <;> rfl
  · intro hb hpf hok
    rcases (validate_ok_iff st c t cl com role).mp hok with ⟨_, _, _, hlast⟩
    rcases hlast with hlast | hlast
    · exact absurd hb (by rw [hlast]; exact Bool.false_ne_true)
    · exact absurd hpf (by rw [hlast]; exact Bool.false_ne_true)
  · intro hb hpf h1 h2 h3
    rw [validate_eq, checkReachability_pos st c t h1, ebind_ok,
      checkRole_pos st t role h2, ebind_ok, checkChecklist_pos st t cl h3, ebind_ok,
      checkComment_neg c t com hb hpf]
  · intro hpf
    rw [validate_ok_iff]
    constructor
    · rintro ⟨h1, h2, h3, _⟩
      exact ⟨h1, h2, h3⟩
    · rintro ⟨h1, h2, h3⟩
      exact ⟨h1, h2, h3, Or.inr hpf⟩

/-- Witness for C2 (amended): the backward baseline request
`PLAN_VALIDE → PLAN_EN_REVUE` without comment fails with the
comment-required error once the three earlier checks pass. -/
theorem backward_comment_policy_witness :
    validate_transition baseline .PLAN_VALIDE .PLAN_EN_REVUE
      { contours_locked := true } none (some .PHYSICIEN)
      = .error (.transitionError commentMsg) :=
  (backward_comment_policy baseline .PLAN_VALIDE .PLAN_EN_REVUE
    { contours_locked := true } none (some .PHYSICIEN)).2.2.2.1
    (by decide) (by decide) (by decide) (by decide) (by decide)

/-- C10: every status occurs in the fixed order, so backward classification
is the plain index comparison (the absent-status fallback is unreachable);
`A_REPRENDRE_CONTOURAGE` sits at index 4 between `PLAN_EN_REVUE` (3) and
`PLAN_VALIDE` (5), making `PLAN_EN_REVUE → A_REPRENDRE_CONTOURAGE` a
forward move that succeeds without a comment and
`A_REPRENDRE_CONTOURAGE → CONTOURS_VALIDES` a backward move that requires
one. -/
theorem order_covers_every_status :
    (∀ s : DossierStatus, s ∈ statusOrder)
    ∧ (∀ c t : DossierStatus,
        isBackward c t = decide (statusOrder.findIdx (· == t) < statusOrder.findIdx (· == c)))
    ∧ statusOrder.findIdx (· == DossierStatus.A_REPRENDRE_CONTOURAGE) = 4
    ∧ statusOrder.findIdx (· == DossierStatus.PLAN_EN_REVUE) = 3
    ∧ statusOrder.findIdx (· == DossierStatus.PLAN_VALIDE) = 5
    ∧ isBackward .PLAN_EN_REVUE .A_REPRENDRE_CONTOURAGE = false
    ∧ isBackward .A_REPRENDRE_CONTOURAGE .CONTOURS_VALIDES = true
    ∧ validate_transition baseline .PLAN_EN_REVUE .A_REPRENDRE_CONTOURAGE {} none none
        = .ok ()
    ∧ validate_transition baseline .A_REPRENDRE_CONTOURAGE .CONTOURS_VALIDES
        { prescription_signed := true } none none
        = .error (.transitionError commentMsg)
    ∧ validate_transition baseline .A_REPRENDRE_CONTOURAGE .CONTOURS_VALIDES
        { prescription_signed := true } (some "retour contourage") none = .ok () := by
  decide

/-- C5: `validate_transition` reports the illegal-transition error exactly
when the target is not among `forward_rules[current]`, and from the
terminal baseline status `CLOTURE` every request fails that way. -/
theorem illegal_iff_unreachable (st : EngineState) (c t : DossierStatus)
    (cl : ChecklistState) (com : Option String) (role : Option Role) :
    (validate_transition st c t cl com role
        = .error (.transitionError (illegalMsg c t)) ↔ t ∉ st.forward_rules c)
    ∧ (∀ t' : DossierStatus, ∀ cl' : ChecklistState, ∀ com' : Option String,
        ∀ role' : Option Role,
        validate_transition baseline .CLOTURE t' cl' com' role'
          = .error (.transitionError (illegalMsg .CLOTURE t'))) := by
  constructor
  · constructor
    · intro h hmem
      rw [validate_eq, checkReachability_pos st c t hmem, ebind_ok] at h
      rcases ebind_error_cases _ _ _ h with h2 | ⟨_, h2⟩
      · rcases checkRole_shapes st t role _ h2 with ⟨r, _, hcase⟩
        exact illegal_ne_unauth c t r t (PyErr.transitionError.inj hcase)
      · rcases ebind_error_cases _ _ _ h2 with h3 | ⟨_, h3⟩
        · rcases checkChecklist_shapes st t cl _ h3 with ⟨req, _, hcase | ⟨_, hcase⟩⟩
          · exact illegal_ne_precond c t req t (PyErr.transitionError.inj hcase)
          · exact absurd hcase.symm (by simp)
        · exact illegal_ne_comment c t
            (PyErr.transitionError.inj (checkComment_shapes c t com _ h3))
    · intro h
      rw [validate_eq, checkReachability_neg st c t h, ebind_err]
  · intro t' cl' com' role'
    rw [validate_eq, checkReachability_neg baseline .CLOTURE t' (by simp [reachOk, baseline, baseForwardRules]),
      ebind_err]

/-- Witness for C5: the baseline rejects `CLOTURE → EN_TRAITEMENT` with the
illegal-transition error. -/
theorem illegal_iff_unreachable_witness :
    validate_transition baseline .CLOTURE .EN_TRAITEMENT {} none none
      = .error (.transitionError (illegalMsg .CLOTURE .EN_TRAITEMENT)) :=
  (illegal_iff_unreachable baseline .CLOTURE .EN_TRAITEMENT {} none none).1.mpr
    (by decide)

/-- C6: the role check only fires when a role is supplied; an empty allowed
list leaves the transition unrestricted by role; a non-empty list rejects
exactly the non-members with the unauthorized-role error; and after setting
`allowed_roles[CONTOURS_VALIDES] = [ONCOLOGUE]`, the `PHYSICIEN` request is
rejected with that error while the identical `ONCOLOGUE` request succeeds. -/
theorem role_gate (st : EngineState) (c t : DossierStatus) (cl : ChecklistState)
    (com : Option String) :
    (∀ r' t', validate_transition st c t cl com none
        ≠ .error (.transitionError (unauthMsg r' t')))
    ∧ (st.allowed_roles t = [] → ∀ r r' t',
        validate_transition st c t cl com (some r)
          ≠ .error (.transitionError (unauthMsg r' t')))
    ∧ (∀ r, st.allowed_roles t ≠ [] → r ∉ st.allowed_roles t → reachOk st c t →
        validate_transition st c t cl com (some r)
          = .error (.transitionError (unauthMsg r t)))
    ∧ (∀ r, r ∈ st.allowed_roles t → ∀ r' t',
        validate_transition st c t cl com (some r)
          ≠ .error (.transitionError (unauthMsg r' t')))
    ∧ validate_transition (update_allowed_roles baseline .CONTOURS_VALIDES [.ONCOLOGUE]).1
        .PRESCRIPTION_VALIDEE .CONTOURS_VALIDES { prescription_signed := true }
        none (some .PHYSICIEN)
        = .error (.transitionError (unauthMsg .PHYSICIEN .CONTOURS_VALIDES))
    ∧ validate_transition (update_allowed_roles baseline .CONTOURS_VALIDES [.ONCOLOGUE]).1
        .PRESCRIPTION_VALIDEE .CONTOURS_VALIDES { prescription_signed := true }
        none (some .ONCOLOGUE) = .ok () := by
  refine ⟨?_, ?_, ?_, ?_, by decide, by decide⟩
  · exact fun r' t' => validate_no_unauth st c t cl com none rfl r' t'
  · intro he r r' t'
    exact validate_no_unauth st c t cl com (some r) (by simp [roleBlocked, he]) r' t'
  · intro r hne hnm hreach
    rw [validate_eq, checkReachability_pos st c t hreach, ebind_ok,
      checkRole_neg st t r (by simp [roleBlocked, hne, hnm]), ebind_err]
  · intro r hmem r' t'
    exact validate_no_unauth st c t cl com (some r) (by simp [roleBlocked, hmem]) r' t'

/-- Witness for C6: with no role supplied, a baseline request never fails
with the unauthorized-role error. -/
theorem role_gate_witness :
    validate_transition baseline .A_PREPARER .PRESCRIPTION_VALIDEE {} none none
      ≠ .error (.transitionError (unauthMsg .PHYSICIEN .PRESCRIPTION_VALIDEE)) :=
  (role_gate baseline .A_PREPARER .PRESCRIPTION_VALIDEE {} none).1
    .PHYSICIEN .PRESCRIPTION_VALIDEE

/-- C3 as stated is false: the reachability, backward-comment, checklist
and configuration failures are all raised as the one exception class
`TransitionError`, so no two of the claimed kinds are distinguishable by
type. -/
theorem single_error_class_counterexample :
    validate_transition baseline .CLOTURE .A_PREPARER {} none none
        = .error (.transitionError (illegalMsg .CLOTURE .A_PREPARER))
    ∧ validate_transition baseline .PRESCRIPTION_VALIDEE .A_PREPARER {} none none
        = .error (.transitionError commentMsg)
    ∧ validate_transition baseline .A_PREPARER .PRESCRIPTION_VALIDEE {} none none
        = .error (.transitionError (precondMsg "identity_validated" .PRESCRIPTION_VALIDEE))
    ∧ (update_checklist_requirement baseline .PLAN_VALIDE (some "bogus")).2
        = .error (.transitionError (configReqMsg "bogus"))
    ∧ (PyErr.transitionError (illegalMsg .CLOTURE .A_PREPARER)).pyClass
        = (PyErr.transitionError commentMsg).pyClass
    ∧ (PyErr.transitionError commentMsg).pyClass
        = (PyErr.transitionError (configReqMsg "bogus")).pyClass := by
  decide

/-- C3 (amended): every validation failure of `validate_transition` (under
the invariant that stored requirements name real checklist fields) and
every checklist-configuration failure is raised as the single class
`TransitionError`; the four validation kinds are distinguishable only by
their pairwise-distinct message families, never by type. -/
theorem single_error_class (st : EngineState) (c t : DossierStatus) (cl : ChecklistState)
    (com : Option String) (role : Option Role) :
    (validOk st = true → ∀ e, validate_transition st c t cl com role = .error e →
        e.pyClass = "TransitionError")
    ∧ (∀ status : DossierStatus, ∀ req : Option String, ∀ e : PyErr,
        (update_checklist_requirement st status req).2 = .error e →
        e.pyClass = "TransitionError")
    ∧ (∀ r t', illegalMsg c t ≠ unauthMsg r t')
    ∧ (∀ req t', illegalMsg c t ≠ precondMsg req t')
    ∧ illegalMsg c t ≠ commentMsg
    ∧ (∀ r req t', unauthMsg r t ≠ precondMsg req t')
    ∧ (∀ r, unauthMsg r t ≠ commentMsg)
    ∧ (∀ req, precondMsg req t ≠ commentMsg) := by
  refine ⟨?_, ?_, illegal_ne_unauth c t, illegal_ne_precond c t, illegal_ne_comment c t,
    fun r req t' => unauth_ne_precond r t req t', fun r => unauth_ne_comment r t,
    fun req => precond_ne_comment req t⟩
  · intro hv e h
    rcases validate_error_shapes st c t cl com role e h with
      he | ⟨r, _, he⟩ | ⟨req, hreq, he | ⟨hget, _⟩⟩ | he
    · rw [he]; rfl
    · rw [he]; rfl
    · rw [he]; rfl
    · have := getField?_isSome_of_mem cl req (validOk_spec st hv t req hreq)
      rw [hget] at this
      exact absurd this (by simp)
    · rw [he]; rfl
  · intro status req e h
    unfold update_checklist_requirement at h
    by_cases h1 : (!pyFalsyStr req : Bool) ∧ req.getD "" ∉ ChecklistState.fieldNames
    · rw [if_pos h1] at h
      simp only at h
      rw [← Except.error.inj h]
      rfl
    · rw [if_neg h1] at h
      by_cases h2 : (!pyFalsyStr req : Bool)
      · rw [if_pos h2] at h
        exact absurd h (by simp)
      · rw [if_neg h2] at h
        exact absurd h (by simp)

/-- Witness for C3 (amended): the terminal-state rejection carries the
Python class name `TransitionError`. -/
theorem single_error_class_witness :
    (PyErr.transitionError (illegalMsg .CLOTURE .A_PREPARER)).pyClass = "TransitionError" :=
  (single_error_class baseline .CLOTURE .A_PREPARER {} none none).1 (by decide)
    (.transitionError (illegalMsg .CLOTURE .A_PREPARER)) (by decide)

/-- C4: from `A_PREPARER` with an all-false checklist and no comment, the
baseline rejects `PRESCRIPTION_VALIDEE` with the precondition error whose
message mentions `identity_validated`; the same request with
`identity_validated := true` succeeds and yields a `Transition` from
`A_PREPARER` to `PRESCRIPTION_VALIDEE`. -/
theorem baseline_roundtrip :
    apply_transition baseline "t1" 0 "d1" .A_PREPARER .PRESCRIPTION_VALIDEE {}
        "bot" .PHYSICIEN none
      = .error (.transitionError (precondMsg "identity_validated" .PRESCRIPTION_VALIDEE))
    ∧ strContains (precondMsg "identity_validated" .PRESCRIPTION_VALIDEE)
        "identity_validated" = true
    ∧ apply_transition baseline "t1" 0 "d1" .A_PREPARER .PRESCRIPTION_VALIDEE
        { identity_validated := true } "bot" .PHYSICIEN none
      = .ok { id := "t1", dossier_id := "d1", ancien_statut := .A_PREPARER,
              nouveau_statut := .PRESCRIPTION_VALIDEE, horodatage := 0,
              auteur := "bot", role := .PHYSICIEN, commentaire := none } := by
  decide

/-- C8: the claim is right about intent but the code slips — on a plain
string that is not a recognized status, building the invalid-targets error
message itself evaluates `t.value` on a `str` and dies with
`AttributeError` instead of the configuration error; the table is still
left unchanged. The checklist-requirement mutator does validate before
mutating, rejects unknown fields with the configuration error, and clears
the entry when no field is given. -/
theorem config_validation_before_mutation :
    (update_transitions baseline .A_PREPARER [.str "BOGUS"]).2
        = .error (.attributeError "'str' object has no attribute 'value'")
    ∧ (update_transitions baseline .A_PREPARER [.str "BOGUS"]).1 = baseline
    ∧ (update_checklist_requirement baseline .PLAN_VALIDE (some "bogus")).2
        = .error (.transitionError (configReqMsg "bogus"))
    ∧ (update_checklist_requirement baseline .PLAN_VALIDE (some "bogus")).1 = baseline
    ∧ (update_checklist_requirement baseline .PLAN_VALIDE none).2 = .ok ()
    ∧ (update_checklist_requirement baseline .PLAN_VALIDE none).1.checklist_requirements
        .PLAN_VALIDE = none
    ∧ (update_checklist_requirement baseline .PLAN_VALIDE none).1.checklist_requirements
        .EN_TRAITEMENT = some "qa_machine_jour"
    ∧ (update_transitions baseline .A_PREPARER [.status .CONTOURS_VALIDES]).2 = .ok ()
    ∧ (update_transitions baseline .A_PREPARER
        [.status .CONTOURS_VALIDES]).1.forward_rules .A_PREPARER
        = [.CONTOURS_VALIDES] := by
  refine ⟨by decide, rfl, by decide, rfl, by decide, by decide, by decide, by decide,
    by decide⟩

/-- C9: the merged checklist equals the prior state with exactly the
overridden keys replaced — each field takes the override when present and
keeps its prior value otherwise, and an empty override map reproduces the
prior state. -/
theorem checklist_merge_exact (C : ChecklistState) (O : String → Option Bool) :
    (C.modelCopy O).identity_validated = (O "identity_validated").getD C.identity_validated
    ∧ (C.modelCopy O).prescription_signed
        = (O "prescription_signed").getD C.prescription_signed
    ∧ (C.modelCopy O).contours_locked = (O "contours_locked").getD C.contours_locked
    ∧ (C.modelCopy O).qa_dosimetrie = (O "qa_dosimetrie").getD C.qa_dosimetrie
    ∧ (C.modelCopy O).signature_oncologue
        = (O "signature_oncologue").getD C.signature_oncologue
    ∧ (C.modelCopy O).qa_machine_jour = (O "qa_machine_jour").getD C.qa_machine_jour
    ∧ (∀ f b, f ∈ ChecklistState.fieldNames → C.getField? f = some b →
        (C.modelCopy O).getField? f = some ((O f).getD b))
    ∧ ((∀ k, O k = none) → C.modelCopy O = C) := by
  refine ⟨rfl, rfl, rfl, rfl, rfl, rfl, ?_, ?_⟩
  · intro f b hf hb
    fin_cases hf <;> simp_all [ChecklistState.getField?, ChecklistState.modelCopy]
  · intro hO
    cases C
    simp [ChecklistState.modelCopy, hO]

/-- Witness for C9: merging the empty override map into the default
checklist reproduces it. -/
theorem checklist_merge_exact_witness :
    ChecklistState.modelCopy {} (fun _ => none) = {} :=
  (checklist_merge_exact {} (fun _ => none)).2.2.2.2.2.2.2 (fun _ => rfl)

/-- C7: a failed transition request leaves the whole process state — rule
table, patients, dossiers (status, checklist, history), messages,
notifications — exactly as it was; a successful one leaves the engine's
rule table untouched and changes only the addressed dossier, whose status,
merged checklist and appended history are written by the repository using
the `Transition` record the engine returned. -/
theorem no_partial_application (w : World) (freshId : String) (now : Nat)
    (did : String) (req : TransitionRequest) :
    (∀ e, (repoApplyTransition w freshId now did req).2 = .error e →
        (repoApplyTransition w freshId now did req).1 = w)
    ∧ (∀ tr, (repoApplyTransition w freshId now did req).2 = .ok tr →
        (repoApplyTransition w freshId now did req).1.eng = w.eng
        ∧ (repoApplyTransition w freshId now did req).1.repo.patients = w.repo.patients
        ∧ (repoApplyTransition w freshId now did req).1.repo.messages = w.repo.messages
        ∧ ∃ d, w.repo.dossiers did = some d
            ∧ tr.ancien_statut = d.statut
            ∧ tr.nouveau_statut = req.cible
            ∧ (repoApplyTransition w freshId now did req).1.repo.dossiers did
                = some { d with
                         statut := req.cible
                         checklists := d.checklists.modelCopy req.contexte
                         historique := d.historique ++ [tr] }
            ∧ ∀ k, k ≠ did → k ≠ d.id →
                (repoApplyTransition w freshId now did req).1.repo.dossiers k
                  = w.repo.dossiers k) := by
  rcases hd : w.repo.dossiers did with _ | d
  · refine ⟨fun e h => ?_, fun tr h => ?_⟩
    · simp [repoApplyTransition, hd]
    · exact absurd h (by simp [repoApplyTransition, hd])
  · rcases hact : req.acteur with _ | a
    · refine ⟨fun e h => ?_, fun tr h => ?_⟩
      · simp [repoApplyTransition, hd, hact]
      · exact absurd h (by simp [repoApplyTransition, hd, hact])
    · rcases hrole : req.role with _ | r
      · refine ⟨fun e h => ?_, fun tr h => ?_⟩
        · simp [repoApplyTransition, hd, hact, hrole]
        · exact absurd h (by simp [repoApplyTransition, hd, hact, hrole])
      · by_cases hae : a.isEmpty
        · refine ⟨fun e h => ?_, fun tr h => ?_⟩
          · simp [repoApplyTransition, hd, hact, hrole, hae]
          · exact absurd h (by simp [repoApplyTransition, hd, hact, hrole, hae])
        · rcases happ : apply_transition w.eng freshId now d.id d.statut req.cible
              (d.checklists.modelCopy req.contexte) a r req.commentaire with e' | tr'
          · refine ⟨fun e h => ?_, fun tr h => ?_⟩
            · simp [repoApplyTransition, hd, hact, hrole, hae, happ]
            · exact absurd h (by simp [repoApplyTransition, hd, hact, hrole, hae, happ])
          · refine ⟨fun e h => ?_, fun tr h => ?_⟩
            · exact absurd h (by simp [repoApplyTransition, hd, hact, hrole, hae, happ])
            · have htr : tr = tr' := by
                have := h
                simp [repoApplyTransition, hd, hact, hrole, hae, happ] at this
                exact this.symm
              subst htr
              rcases apply_transition_ok w.eng freshId now d.id d.statut req.cible
                  (d.checklists.modelCopy req.contexte) a r req.commentaire tr happ
                with ⟨_, htr'⟩
              refine ⟨by simp [repoApplyTransition, hd, hact, hrole, hae, happ],
                by simp [repoApplyTransition, hd, hact, hrole, hae, happ],
                by simp [repoApplyTransition, hd, hact, hrole, hae, happ],
                d, rfl, by rw [htr'], by rw [htr'], ?_, ?_⟩
              · by_cases hkid : did = d.id
                · subst hkid
                  simp [repoApplyTransition, hd, hact, hrole, hae, happ]
                · simp [repoApplyTransition, hd, hact, hrole, hae, happ, hkid]
              · intro k hk1 hk2
                simp [repoApplyTransition, hd, hact, hrole, hae, happ, hk1, hk2]

/-- A concrete dossier, world and request for the frame witness. -/
def d0 : Dossier :=
  { id := "d1", patient_id := "p1" }

def w0 : World where
  eng := baseline
  repo :=
    { patients := fun _ => none
      dossiers := fun k => if k = "d1" then some d0 else none
      messages := fun _ => []
      notifications := [] }

def req0 : TransitionRequest where
  cible := .CONTOURS_VALIDES
  contexte := fun _ => none
  commentaire := none
  acteur := some "bot"
  role := some .PHYSICIEN

/-- Witness for C7: a rejected request (`A_PREPARER → CONTOURS_VALIDES` is
not a baseline edge) leaves the world exactly as it was. -/
theorem no_partial_application_witness :
    (repoApplyTransition w0 "t1" 0 "d1" req0).1 = w0 :=
  (no_partial_application w0 "t1" 0 "d1" req0).1
    (.transitionError (illegalMsg .A_PREPARER .CONTOURS_VALIDES)) (by decide)
